import Mathlib

set_option autoImplicit false

/-!
Verification of the single-file download engine of `gimmie` (src/gimmie/main.py).

The engine is shallowly embedded:
  * the two on-disk files of one download (the temp `.part` file and the final
    file) form the state `FS`, their contents being byte lists;
  * Python exceptions raised and caught by the engine are the inductive `PyExc`;
  * the network is a `Server`: a function from (request number, optional Range
    offset) to either an `HttpResponse` or a raised exception.  A response body
    is a list of stream events: a chunk carrying the wall-clock time at which
    `iter_content` yields it, or an exception raised mid-stream;
  * `time.sleep` and the diagnostic `print`s are recorded observationally in
    the returned `DownloadResult` (fields `sleeps` and `msgs`).

Each Lean definition mirrors the Python function of the same name; line
numbers in comments refer to src/gimmie/main.py.
-/

namespace Gimmie

/-- Contents of the two files a download touches: the temporary `.part` file
and the final file.  `none` means the file does not exist. -/
structure FS where
  temp : Option (List Nat)
  final : Option (List Nat)
deriving DecidableEq

/-- Python exceptions that the engine raises or catches.
`requestExc resp` is a `requests.exceptions.RequestException` that is neither
a `ConnectTimeout` nor a `ReadTimeout`; `resp` is the status code of the
attached response, or `none` when `e.response is None` (transport errors such
as DNS failure or connection reset).  `timeoutError` is the builtin
`TimeoutError` raised by the total-timeout check.  `attributeError` is the
`AttributeError` raised by evaluating `e.response.status_code` when
`e.response` is `None`.  `otherExc` stands for any other exception
(e.g. an `OSError` from the filesystem). -/
inductive PyExc where
  | connectTimeout
  | readTimeout
  | timeoutError
  | requestExc (response : Option Nat)
  | attributeError
  | otherExc
deriving DecidableEq

/-- File open mode used by the engine: `wb` truncates, `ab` appends. -/
inductive FileMode where
  | wb
  | ab
deriving DecidableEq

/-- The double-quote character. -/
def dquote : Char := Char.ofNat 34

/-- The single-quote character. -/
def squote : Char := Char.ofNat 39

/-- The characters Python `str.strip()` with no argument removes
(ASCII whitespace; the exotic unicode spaces are not used here). -/
def isPySpace (c : Char) : Bool :=
  c == ' ' || c == '\t' || c == '\n' || c == '\r'
    || c == Char.ofNat 11 || c == Char.ofNat 12

/-- Python `str.strip`: drop the characters satisfying `p` from both ends.
Strings are modelled as their character lists throughout. -/
def stripBy (p : Char → Bool) (cs : List Char) : List Char :=
  ((cs.dropWhile p).reverse.dropWhile p).reverse

/-- Python `str.split(sep)` for a one-character separator: `pySplit sep s`
is the list of fields of `s` between occurrences of `sep` (empty fields
kept, as in Python). -/
def pySplit (sep : Char) : List Char → List (List Char)
  | [] => [[]]
  | c :: rest =>
    let r := pySplit sep rest
    if c == sep then [] :: r
    else (c :: r.headD []) :: r.tail

/-- One event of a streamed response body, as seen by the
`for chunk in response.iter_content(...)` loop: either a chunk (with the
wall-clock time at which the loop body runs for it) or an exception raised
by `iter_content` while producing the next chunk. -/
inductive StreamEvent where
  | chunk (now : Nat) (data : List Nat)
  | raiseExc (e : PyExc)
deriving DecidableEq

/-- An HTTP response: status code, the `content-length` header (already as a
number; absent encoded as `none`), the raw `Content-Range` header value (as
a character list), and the streamed body. -/
structure HttpResponse where
  status_code : Nat
  content_length : Option Nat
  content_range : Option (List Char)
  body : List StreamEvent
deriving DecidableEq

/-- Result of one `requests.get` call: a response, or a raised exception. -/
inductive ReqResult where
  | ok (response : HttpResponse)
  | err (e : PyExc)
deriving DecidableEq

/-- The network peer: maps the index of the request (0-based count of
`make_request` calls made so far by this download) and the offset of the
`Range: bytes=N-` header (`none` when no Range header is sent) to the
outcome of that request. -/
def Server : Type := Nat → Option Nat → ReqResult

/-- Configuration of one `download_file` call (its keyword parameters),
plus `start_time`, the `time.time()` reading taken at line 218 before the
first attempt. -/
structure DownloadConfig where
  connect_timeout : Nat
  read_timeout : Nat
  total_timeout : Option Nat
  retry_count : Nat
  attempt_resume : Bool
  start_time : Nat
deriving DecidableEq

/-- Truthiness of the Python `total_timeout` value in `if total_timeout and ...`
(line 128): `None` and `0` are falsy. -/
def totalTimeoutTruthy : Option Nat → Bool
  | none => false
  | some v => v != 0

/-- Diagnostic messages printed by `handle_download_error` (lines 161-186),
one constructor per distinct `print` call. -/
inductive ErrorMsg where
  | connectTimeoutMsg
  | stalledMsg
  | noResponseMsg
  | timeoutMsg
  | requestErrorMsg
  | unexpectedMsg
deriving DecidableEq

/-- Embeds `prepare_download_state` (lines 29-46).  Returns the offset of the
`Range` header (`none` if no Range header), the file mode, `downloaded_bytes`,
and the file state (a stale temp file is removed when not resuming).  The
file's size is the length of its contents. -/
def prepare_download_state (attempt_resume : Bool) (attempts : Nat) (fs : FS) :
    Option Nat × FileMode × Nat × FS :=
  if fs.temp.isSome && attempt_resume && decide (attempts > 0) then
    let downloaded_bytes := (fs.temp.getD []).length
    (some downloaded_bytes, FileMode.ab, downloaded_bytes, fs)
  else
    (none, FileMode.wb, 0,
      if fs.temp.isSome then { fs with temp := none } else fs)

/-- Embeds `cleanup_download` (lines 49-60).  `has_file_path` records whether the
`file_path` argument was passed (truthy).  On success the pre-existing final
file is removed first, then the temp file is renamed onto the final path;
`os.rename` raises (an `OSError`, modelled `otherExc`) if the temp file does
not exist - at that point the final file has already been removed. -/
def cleanup_download (success : Bool) (has_file_path : Bool) (fs : FS) :
    Except PyExc Bool × FS :=
  if success && has_file_path then
    match fs.temp with
    | some c => (Except.ok true, { temp := none, final := some c })
    | none => (Except.error PyExc.otherExc, { fs with final := none })
  else if !success && fs.temp.isSome then
    (Except.ok false, { fs with temp := none })
  else
    (Except.ok false, fs)

/-- Embeds `raise_for_status` of the requests library: raises an `HTTPError`
(a `RequestException` carrying the response) for status codes 400-599. -/
def raise_for_status (r : HttpResponse) : Except PyExc Unit :=
  if 400 ≤ r.status_code ∧ r.status_code < 600 then
    Except.error (PyExc.requestExc (some r.status_code))
  else
    Except.ok ()

/-- Embeds `handle_resume_response` (lines 68-86).  Takes the current request count
so the fallback re-request (line 82, issued without the Range header) can be
served; returns the (possibly re-issued) response, `downloaded_bytes`, the
file mode, `supports_resume`, plus the file state and updated request count.
Line 78 calls `os.remove(temp_path)` unguarded, so a missing temp file would
raise (modelled `otherExc`). -/
def handle_resume_response (server : Server) (response : HttpResponse)
    (downloaded_bytes : Nat) (file_mode : FileMode) (fs : FS) (reqCount : Nat) :
    Except PyExc (HttpResponse × Nat × FileMode × Bool) × FS × Nat :=
  let supports_resume := response.status_code == 206
  if decide (downloaded_bytes > 0) && !supports_resume
      && (response.status_code == 200) then
    match fs.temp with
    | none => (Except.error PyExc.otherExc, fs, reqCount)
    | some _ =>
      let fs1 : FS := { fs with temp := none }
      match server reqCount none with
      | ReqResult.err e => (Except.error e, fs1, reqCount + 1)
      | ReqResult.ok response2 =>
        match raise_for_status response2 with
        | Except.error e => (Except.error e, fs1, reqCount + 1)
        | Except.ok _ =>
          (Except.ok (response2, 0, FileMode.wb, supports_resume), fs1,
            reqCount + 1)
  else
    match raise_for_status response with
    | Except.error e => (Except.error e, fs, reqCount)
    | Except.ok _ =>
      (Except.ok (response, downloaded_bytes, file_mode, supports_resume),
        fs, reqCount)

/-- Value of a nonempty all-digit character list, as Python `int` reads it. -/
def digitsToNat (l : List Char) : Nat :=
  l.foldl (fun acc c => acc * 10 + (c.toNat - 48)) 0

/-- Whether `l` is a nonempty run of ASCII digits. -/
def isDigitRun (l : List Char) : Bool :=
  !l.isEmpty && l.all Char.isDigit

/-- Python `int(s)` on a string: strips surrounding whitespace, accepts an
optional sign followed by digits, raises `ValueError` (here: `none`)
otherwise.  (Underscore digit grouping and non-ASCII digits, which CPython
also accepts, are not modelled; no header in scope uses them.) -/
def pyInt (s : List Char) : Option Int :=
  match stripBy isPySpace s with
  | '+' :: rest => if isDigitRun rest then some (digitsToNat rest) else none
  | '-' :: rest => if isDigitRun rest then some (-(digitsToNat rest : Int)) else none
  | l => if isDigitRun l then some (digitsToNat l) else none

/-- The expected-total-size computation at the top of `download_content`
(lines 99-116): the value after the final `/` of the `Content-Range` header
when the server confirmed a resume, with `downloaded_bytes + content-length`
as fallback when that parse raises; `downloaded_bytes + content-length` when
resuming without the header; the `content-length` alone (defaulted to 0 when
the header is absent, line 100) otherwise.  The slash split's last element
is `(pySplit sep l).getLastD []`: the split result is never empty, so the
Python `[-1]` never raises an `IndexError`. -/
def total_size_estimate (response : HttpResponse) (downloaded_bytes : Nat)
    (supports_resume : Bool) : Int :=
  let initial_content_length : Int := (response.content_length.getD 0 : Nat)
  if supports_resume && response.content_range.isSome then
    match pyInt ((pySplit '/' (response.content_range.getD [])).getLastD []) with
    | some total => total
    | none => (downloaded_bytes : Int) + initial_content_length
  else if decide (downloaded_bytes > 0) then
    (downloaded_bytes : Int) + initial_content_length
  else
    initial_content_length

/-- Embeds `open(temp_path, file_mode)` at line 125: `wb` truncates (or creates),
`ab` appends (creating an empty file when absent). -/
def openTemp (fs : FS) : FileMode → FS
  | FileMode.wb => { fs with temp := some [] }
  | FileMode.ab => { fs with temp := some (fs.temp.getD []) }

/-- Embeds `file.write(chunk)`: append the chunk to the open temp file. -/
def writeTemp (fs : FS) (data : List Nat) : FS :=
  { fs with temp := some (fs.temp.getD [] ++ data) }

/-- The `for chunk in response.iter_content(chunk_size=8192)` loop of
`download_content` (lines 126-153): per chunk, first the total-timeout check
(line 128, raising `TimeoutError`), then `if chunk:` writes nonempty data and
updates `bytes_in_this_attempt`.  Writes made before an exception persist in
the file. -/
def stream_loop (total_timeout : Option Nat) (start_time : Nat) :
    List StreamEvent → Nat → FS → Except PyExc Nat × FS
  | [], bytes_in_this_attempt, fs => (Except.ok bytes_in_this_attempt, fs)
  | StreamEvent.raiseExc e :: _, _, fs => (Except.error e, fs)
  | StreamEvent.chunk now data :: rest, bytes_in_this_attempt, fs =>
    if totalTimeoutTruthy total_timeout
        && decide (now - start_time > total_timeout.getD 0) then
      (Except.error PyExc.timeoutError, fs)
    else if !data.isEmpty then
      stream_loop total_timeout start_time rest
        (bytes_in_this_attempt + data.length) (writeTemp fs data)
    else
      stream_loop total_timeout start_time rest bytes_in_this_attempt fs

/-- Embeds `download_content` (lines 89-158): computes the total-size estimate
(which only drives the progress display), opens the temp file in the given
mode and streams the body into it.  Returns `bytes_in_this_attempt`, or the
exception raised mid-transfer. -/
def download_content (response : HttpResponse) (file_mode : FileMode)
    (downloaded_bytes : Nat) (supports_resume : Bool)
    (total_timeout : Option Nat) (start_time : Nat) (fs : FS) :
    Except PyExc Nat × FS :=
  let _total_size := total_size_estimate response downloaded_bytes supports_resume
  stream_loop total_timeout start_time response.body 0 (openTemp fs file_mode)

/-- Embeds `handle_download_error` (lines 161-186).  Returns the retryability
decision and the diagnostic message, or the exception it itself raises: for
a `RequestException`, `hasattr(e, "response")` is always true (the attribute
exists, possibly `None`), so when the exception carries no response the
access `e.response.status_code` at line 178 raises `AttributeError`.
A terminal 4xx deletes the temp file (lines 180-181). -/
def handle_download_error (e : PyExc) (_read_timeout : Nat)
    (bytes_in_this_attempt : Nat) (fs : FS) :
    Except PyExc (Bool × ErrorMsg) × FS :=
  match e with
  | PyExc.connectTimeout => (Except.ok (true, ErrorMsg.connectTimeoutMsg), fs)
  | PyExc.readTimeout =>
    if decide (bytes_in_this_attempt > 0) then
      (Except.ok (true, ErrorMsg.stalledMsg), fs)
    else
      (Except.ok (true, ErrorMsg.noResponseMsg), fs)
  | PyExc.timeoutError => (Except.ok (true, ErrorMsg.timeoutMsg), fs)
  | PyExc.requestExc resp =>
    match resp with
    | none => (Except.error PyExc.attributeError, fs)
    | some status =>
      if 400 ≤ status ∧ status < 500 then
        if status ≠ 429 then
          (Except.ok (false, ErrorMsg.requestErrorMsg),
            if fs.temp.isSome then { fs with temp := none } else fs)
        else
          (Except.ok (true, ErrorMsg.requestErrorMsg), fs)
      else
        (Except.ok (true, ErrorMsg.requestErrorMsg), fs)
  | _ => (Except.ok (true, ErrorMsg.unexpectedMsg), fs)

/-- Embeds `apply_retry_backoff` (lines 189-198): whether to keep retrying, and the
duration of the `time.sleep` it performs (none when it does not sleep). -/
def apply_retry_backoff (attempts retry_count : Nat) : Bool × Option Nat :=
  if attempts ≤ retry_count then
    let wait_time := min (2 ^ attempts) 60
    (true, some wait_time)
  else
    (false, none)

/-- How one iteration of the `try:` block of `download_file` (lines 224-254)
ends: `returned b` when line 254 executes `return cleanup_download(...)`,
`raised e fsAfter bytesVar` when an exception reaches the `except` handler -
`bytesVar` is the value of `download_file`'s local `bytes_in_this_attempt`
at that point (the line 242 assignment happens only when `download_content`
returns normally). -/
inductive AttemptOutcome where
  | returned (b : Bool) (fs : FS)
  | raised (e : PyExc) (fs : FS) (bytesVar : Nat)
deriving DecidableEq

/-- The body of the `try:` block of `download_file` (lines 224-254) for one
attempt.  Also returns the updated request count. -/
def run_attempt (server : Server) (cfg : DownloadConfig) (attempts : Nat)
    (bytes_in_this_attempt : Nat) (fs : FS) (reqCount : Nat) :
    AttemptOutcome × Nat :=
  let (rangeHdr, file_mode, downloaded_bytes, fs1) :=
    prepare_download_state cfg.attempt_resume attempts fs
  match server reqCount rangeHdr with
  | ReqResult.err e => (AttemptOutcome.raised e fs1 bytes_in_this_attempt, reqCount + 1)
  | ReqResult.ok response =>
    match handle_resume_response server response downloaded_bytes file_mode fs1
        (reqCount + 1) with
    | (Except.error e, fs2, rq2) =>
      (AttemptOutcome.raised e fs2 bytes_in_this_attempt, rq2)
    | (Except.ok (response2, db2, fm2, sr2), fs2, rq2) =>
      match download_content response2 fm2 db2 sr2 cfg.total_timeout
          cfg.start_time fs2 with
      | (Except.error e, fs3) =>
        (AttemptOutcome.raised e fs3 bytes_in_this_attempt, rq2)
      | (Except.ok n, fs3) =>
        match cleanup_download true true fs3 with
        | (Except.ok b, fs4) => (AttemptOutcome.returned b fs4, rq2)
        | (Except.error e, fs4) => (AttemptOutcome.raised e fs4 n, rq2)

/-- How `download_file` ends: the boolean it returns, or an exception that
escaped it (re-raised from inside the `except` handler). -/
inductive Outcome where
  | success
  | failure
  | crashed (e : PyExc)
deriving DecidableEq

/-- Observable result of `download_file`: the outcome, the final file state,
the number of iterations of the retry loop that issued a request, the
`time.sleep` durations performed by `apply_retry_backoff` in order, and the
diagnostic messages chosen by `handle_download_error` in order. -/
structure DownloadResult where
  outcome : Outcome
  fs : FS
  attemptsMade : Nat
  sleeps : List Nat
  msgs : List ErrorMsg
deriving DecidableEq

/-- The `while attempts <= retry_count:` loop of `download_file`
(lines 223-269).  `fuel` equals `retry_count + 1 - attempts`, so the guard
`attempts <= retry_count` is exactly `fuel > 0`; the `fuel = 0` case is the
`return False` at line 269.  `bytesVar` is the local `bytes_in_this_attempt`
(initialised to 0 at line 220, reassigned only at line 242). -/
def download_file_loop (server : Server) (cfg : DownloadConfig) :
    Nat → Nat → Nat → FS → Nat → Nat → List Nat → List ErrorMsg →
    DownloadResult
  | 0, _, _, fs, _, attemptsMade, sleeps, msgs =>
    ⟨Outcome.failure, fs, attemptsMade, sleeps, msgs⟩
  | fuel + 1, attempts, bytesVar, fs, reqCount, attemptsMade, sleeps, msgs =>
    match run_attempt server cfg attempts bytesVar fs reqCount with
    | (AttemptOutcome.returned b fs1, _) =>
      ⟨if b then Outcome.success else Outcome.failure, fs1,
        attemptsMade + 1, sleeps, msgs⟩
    | (AttemptOutcome.raised e fs1 bytesVar1, rq1) =>
      match handle_download_error e cfg.read_timeout bytesVar1 fs1 with
      | (Except.error e2, fs2) =>
        ⟨Outcome.crashed e2, fs2, attemptsMade + 1, sleeps, msgs⟩
      | (Except.ok (can_retry, msg), fs2) =>
        if !can_retry then
          ⟨Outcome.failure, fs2, attemptsMade + 1, sleeps, msgs ++ [msg]⟩
        else
          match apply_retry_backoff (attempts + 1) cfg.retry_count with
          | (true, w) =>
            download_file_loop server cfg fuel (attempts + 1) bytesVar1 fs2
              rq1 (attemptsMade + 1) (sleeps ++ w.toList) (msgs ++ [msg])
          | (false, _) =>
            let (_, fs3) := cleanup_download false false fs2
            ⟨Outcome.failure, fs3, attemptsMade + 1, sleeps, msgs ++ [msg]⟩

/-- Embeds `download_file` (lines 201-269) against a given network peer, starting
from a given file state. -/
def download_file (server : Server) (cfg : DownloadConfig) (fs0 : FS) :
    DownloadResult :=
  download_file_loop server cfg (cfg.retry_count + 1) 0 0 fs0 0 0 [] []

/-- A server answering every request with a full 200 response (used by the
witnesses of several claims). -/
def srvOkW : Server :=
  fun _ _ =>
    ReqResult.ok ⟨200, some 2, none, [StreamEvent.chunk 1 [5, 6]]⟩

/-- A configuration with the CLI defaults (retry 3, resume on, no total
timeout), started at time 0 (used by several witnesses). -/
def cfgW : DownloadConfig := ⟨30, 60, none, 3, true, 0⟩

/-- Line processing of `read_urls_from_file` (line 281):
`line.strip().strip(chr(34)).strip(",").strip(chr(39))` - whitespace, then
double quotes, then commas, then single quotes, each stripped from both
ends, in that order. -/
def strip_line (cs : List Char) : List Char :=
  stripBy (fun c => c == squote)
    (stripBy (fun c => c == ',')
      (stripBy (fun c => c == dquote)
        (stripBy isPySpace cs)))

/-- Embeds `url.startswith(chr(35))` at line 282. -/
def startsWithHash : List Char → Bool
  | c :: _ => c == '#'
  | [] => false

/-- The loop of `read_urls_from_file` (lines 276-284) over the lines of the
file: strip each line, keep it when nonempty and not a comment, in order. -/
def read_urls_from_lines : List (List Char) → List (List Char)
  | [] => []
  | line :: rest =>
    let url := strip_line line
    if !url.isEmpty && !startsWithHash url then
      url :: read_urls_from_lines rest
    else
      read_urls_from_lines rest

/-! ## Helper lemmas -/

/-- Removing a temp file that is already absent is the identity. -/
theorem FS_temp_none_eta (fs : FS) (h : fs.temp = none) :
    { fs with temp := none } = fs := by
  rcases fs with ⟨t, f⟩
  cases t with
  | none => rfl
  | some c => simp at h

/-- Line 43-44 (remove a stale temp file if present) always ends with no
temp file. -/
theorem removeStale_eq (fs : FS) :
    (if fs.temp.isSome then { fs with temp := none } else fs) =
      { fs with temp := none } := by
  rcases fs with ⟨t, f⟩
  cases t <;> simp

/-! ## Claim C8: total-size precedence -/

/-- Claim C8: the expected total size is determined by this precedence: the
value after the final slash of the Content-Range header when the server
confirmed a resume; otherwise `downloaded_bytes + content-length` when
resuming without a usable Content-Range (absent, or unparseable); otherwise
the content-length alone for a fresh download; otherwise 0 when no length
information is available. -/
theorem total_size_precedence :
    (∀ (r : HttpResponse) (db : Nat) (s : List Char) (n : Int),
       r.content_range = some s →
       pyInt ((pySplit '/' s).getLastD []) = some n →
       total_size_estimate r db true = n) ∧
    (∀ (r : HttpResponse) (db : Nat) (s : List Char),
       r.content_range = some s →
       pyInt ((pySplit '/' s).getLastD []) = none →
       total_size_estimate r db true =
         (db : Int) + (r.content_length.getD 0 : Nat)) ∧
    (∀ (r : HttpResponse) (db : Nat) (sr : Bool),
       (sr = false ∨ r.content_range = none) → 0 < db →
       total_size_estimate r db sr =
         (db : Int) + (r.content_length.getD 0 : Nat)) ∧
    (∀ (r : HttpResponse) (sr : Bool),
       (sr = false ∨ r.content_range = none) →
       total_size_estimate r 0 sr = (r.content_length.getD 0 : Nat)) ∧
    (∀ (r : HttpResponse) (sr : Bool),
       (sr = false ∨ r.content_range = none) → r.content_length = none →
       total_size_estimate r 0 sr = 0) := by
  refine ⟨?_, ?_, ?_, ?_, ?_⟩
  · intro r db s n hcr hp
    rw [List.getLastD_eq_getLast?] at hp
    simp [total_size_estimate, hcr, hp]
  · intro r db s hcr hp
    rw [List.getLastD_eq_getLast?] at hp
    simp [total_size_estimate, hcr, hp]
  · intro r db sr hsr hdb
    rcases hsr with rfl | hcr
    · simp [total_size_estimate, hdb]
    · simp [total_size_estimate, hcr, hdb]
  · intro r sr hsr
    rcases hsr with rfl | hcr
    · simp [total_size_estimate]
    · simp [total_size_estimate, hcr]
  · intro r sr hsr hcl
    rcases hsr with rfl | hcr
    · simp [total_size_estimate, hcl]
    · simp [total_size_estimate, hcr, hcl]

/-- Witness for C8: each precedence clause evaluated at a concrete response. -/
theorem total_size_precedence_witness :
    total_size_estimate ⟨206, some 500, some ("bytes 100-600/1000".toList), []⟩
      100 true = 1000 ∧
    total_size_estimate ⟨206, some 500, some ("bytes 100-600/x".toList), []⟩
      100 true = 600 ∧
    total_size_estimate ⟨200, some 500, none, []⟩ 100 false = 600 ∧
    total_size_estimate ⟨200, some 500, none, []⟩ 0 false = 500 ∧
    total_size_estimate ⟨200, none, none, []⟩ 0 false = 0 := by
  refine ⟨?_, ?_, ?_, ?_, ?_⟩
  · exact total_size_precedence.1 _ 100 _ 1000 rfl (by decide)
  · exact total_size_precedence.2.1 _ 100 _ rfl (by decide)
  · exact total_size_precedence.2.2.1 _ 100 false (Or.inl rfl) (by decide)
  · exact total_size_precedence.2.2.2.1 _ false (Or.inl rfl)
  · exact total_size_precedence.2.2.2.2 _ false (Or.inl rfl) rfl

/-! ## Claim C10: total_timeout None or 0 never triggers the budget check -/

/-- With a falsy `total_timeout`, the stream loop is independent of the
timeout value. -/
theorem stream_loop_zero_eq_none (start : Nat) :
    ∀ (events : List StreamEvent) (acc : Nat) (fs : FS),
    stream_loop (some 0) start events acc fs =
      stream_loop none start events acc fs := by
  intro events
  induction events with
  | nil => intro acc fs; rfl
  | cons e rest ih =>
    intro acc fs
    cases e with
    | raiseExc e2 => rfl
    | chunk now data =>
      simp only [stream_loop, totalTimeoutTruthy, bne_self_eq_false,
        Bool.false_and, Bool.false_eq_true, if_false]
      split <;> exact ih _ _

/-- With a falsy `total_timeout`, the stream loop never raises
`TimeoutError` unless one is injected by the body itself. -/
theorem stream_loop_falsy_no_timeout (tt : Option Nat) (start : Nat)
    (htt : totalTimeoutTruthy tt = false) :
    ∀ (events : List StreamEvent) (acc : Nat) (fs : FS),
    (∀ e ∈ events, e ≠ StreamEvent.raiseExc PyExc.timeoutError) →
    (stream_loop tt start events acc fs).1 ≠
      Except.error PyExc.timeoutError := by
  intro events
  induction events with
  | nil => intro acc fs _; simp [stream_loop]
  | cons e rest ih =>
    intro acc fs hbody
    cases e with
    | raiseExc e2 =>
      have h2 := hbody _ (List.mem_cons_self _ _)
      simp only [stream_loop]
      intro hcontra
      exact h2 (by simpa using hcontra)
    | chunk now data =>
      simp only [stream_loop, htt, Bool.false_and, Bool.false_eq_true, if_false]
      have hrest : ∀ e ∈ rest, e ≠ StreamEvent.raiseExc PyExc.timeoutError :=
        fun e he => hbody e (List.mem_cons_of_mem _ he)
      split <;> exact ih _ _ hrest

/-- Claim C10: a configured total-timeout of 0 behaves exactly like the unset
default (`None`): the chunk-boundary check requires a truthy value, so the
total-timeout condition is never raised regardless of elapsed time. -/
theorem zero_total_timeout_unbounded :
    (∀ (response : HttpResponse) (fm : FileMode) (db : Nat) (sr : Bool)
       (start : Nat) (fs : FS),
       download_content response fm db sr (some 0) start fs =
         download_content response fm db sr none start fs) ∧
    (∀ (response : HttpResponse) (fm : FileMode) (db : Nat) (sr : Bool)
       (tt : Option Nat) (start : Nat) (fs : FS),
       (tt = none ∨ tt = some 0) →
       (∀ e ∈ response.body, e ≠ StreamEvent.raiseExc PyExc.timeoutError) →
       (download_content response fm db sr tt start fs).1 ≠
         Except.error PyExc.timeoutError) := by
  constructor
  · intro response fm db sr start fs
    unfold download_content
    exact stream_loop_zero_eq_none start response.body 0 (openTemp fs fm)
  · intro response fm db sr tt start fs hfalsy hbody
    have htt : totalTimeoutTruthy tt = false := by
      rcases hfalsy with rfl | rfl <;> rfl
    unfold download_content
    exact stream_loop_falsy_no_timeout tt start htt response.body 0
      (openTemp fs fm) hbody

/-- Witness for C10: a chunk arriving arbitrarily late is still streamed when
`total_timeout` is 0. -/
theorem zero_total_timeout_unbounded_witness :
    download_content ⟨200, none, none, [StreamEvent.chunk 999999 [1, 2]]⟩
        FileMode.wb 0 false (some 0) 0 ⟨none, none⟩ =
      download_content ⟨200, none, none, [StreamEvent.chunk 999999 [1, 2]]⟩
        FileMode.wb 0 false none 0 ⟨none, none⟩ ∧
    (download_content ⟨200, none, none, [StreamEvent.chunk 999999 [1, 2]]⟩
        FileMode.wb 0 false (some 0) 0 ⟨none, none⟩).1 ≠
      Except.error PyExc.timeoutError := by
  constructor
  · exact zero_total_timeout_unbounded.1 _ _ _ _ _ _
  · exact zero_total_timeout_unbounded.2 _ _ _ _ (some 0) _ _ (Or.inr rfl)
      (by decide)

/-! ## Claim C9: URL-list line stripping -/

/-- Characters affected by some stage of line stripping. -/
def isStrippable (c : Char) : Bool :=
  isPySpace c || c == dquote || c == squote || c == ','

/-- Lemma: `dropWhile` is the identity on a list none of whose elements satisfy
the predicate. -/
theorem dropWhile_forall_false {p : Char → Bool} :
    ∀ {l : List Char}, (∀ c ∈ l, p c = false) → l.dropWhile p = l := by
  intro l h
  cases l with
  | nil => rfl
  | cons a l2 =>
    rw [List.dropWhile_cons, h a (List.mem_cons_self _ _)]
    simp

/-- Lemma: `stripBy` is the identity on a list none of whose elements satisfy the
predicate. -/
theorem stripBy_clean {p : Char → Bool} {l : List Char}
    (h : ∀ c ∈ l, p c = false) : stripBy p l = l := by
  unfold stripBy
  rw [dropWhile_forall_false h,
    dropWhile_forall_false (fun c hc => h c (List.mem_reverse.mp hc)),
    List.reverse_reverse]

/-- Lemma: `stripBy` removes a single trailing strippable character from an
otherwise clean list. -/
theorem stripBy_strip_right {p : Char → Bool} {b : Char} {u : List Char}
    (hb : p b = true) (hu : ∀ c ∈ u, p c = false) :
    stripBy p (u ++ [b]) = u := by
  cases u with
  | nil => simp [stripBy, List.dropWhile_cons, hb]
  | cons c u2 =>
    unfold stripBy
    have hdrop : ((c :: u2) ++ [b]).dropWhile p = (c :: u2) ++ [b] := by
      rw [List.cons_append, List.dropWhile_cons,
        hu c (List.mem_cons_self _ _)]
      simp
    rw [hdrop, List.reverse_append, List.reverse_singleton,
      List.singleton_append, List.dropWhile_cons, hb]
    simp only [if_true]
    rw [dropWhile_forall_false (fun x hx => hu x (List.mem_reverse.mp hx)),
      List.reverse_reverse]

/-- Lemma: `stripBy` removes a single leading strippable character from an
otherwise clean list. -/
theorem stripBy_strip_left {p : Char → Bool} {a : Char} {u : List Char}
    (ha : p a = true) (hu : ∀ c ∈ u, p c = false) :
    stripBy p (a :: u) = u := by
  unfold stripBy
  rw [List.dropWhile_cons, ha]
  simp only [if_true]
  rw [dropWhile_forall_false hu,
    dropWhile_forall_false (fun c hc => hu c (List.mem_reverse.mp hc)),
    List.reverse_reverse]

/-- Lemma: `stripBy` removes one strippable character from each end of an otherwise
clean list. -/
theorem stripBy_sandwich {p : Char → Bool} {a b : Char} {u : List Char}
    (ha : p a = true) (hb : p b = true) (hu : ∀ c ∈ u, p c = false) :
    stripBy p (a :: (u ++ [b])) = u := by
  have h1 : (a :: (u ++ [b])).dropWhile p = (u ++ [b]).dropWhile p := by
    rw [List.dropWhile_cons, ha]; simp
  have h2 := stripBy_strip_right hb hu
  unfold stripBy at h2 ⊢
  rw [h1]
  exact h2

/-- The collecting loop of `read_urls_from_file` equals strip-then-filter,
preserving order. -/
theorem read_urls_eq_filter :
    ∀ lines, read_urls_from_lines lines =
      (lines.map strip_line).filter
        (fun u => !u.isEmpty && !startsWithHash u) := by
  intro lines
  induction lines with
  | nil => rfl
  | cons line rest ih =>
    simp only [read_urls_from_lines, List.map_cons, List.filter_cons]
    by_cases h : (!(strip_line line).isEmpty && !startsWithHash (strip_line line)) = true
    · rw [if_pos h, if_pos h, ih]
    · rw [if_neg h, if_neg h, ih]

/-- Claim C9 counterexample: for the line `"https://example.com/a",` (a
double-quoted URL followed by a trailing comma) the returned URL still
carries the closing double quote - the output is not free of quoting
artifacts, because `strip(chr(34))` runs before `strip(",")` and only ever
looks at the ends of the line. -/
theorem read_urls_quote_comma_counterexample :
    read_urls_from_lines
        [dquote :: ("https://example.com/a".toList ++ [dquote, ','])] =
      [("https://example.com/a".toList ++ [dquote])] ∧
    dquote ∈ ("https://example.com/a".toList ++ [dquote]) := by
  decide

/-- Claim C9 (amended): each line is stripped sequentially - whitespace,
then double quotes, then commas, then single quotes, each stage removing
those characters from both ends only; lines empty after stripping or
starting with a hash are skipped and the rest are kept in original order.
For a URL containing no whitespace, quote or comma characters, plain
whitespace padding, a matched double- or single-quote pair, a trailing
comma, and a single-quoted URL with trailing comma are stripped cleanly
(a double-quoted URL with a trailing comma is not: see the
counterexample). -/
theorem read_urls_strip_order (u : List Char)
    (hclean : ∀ c ∈ u, isStrippable c = false) :
    (∀ lines, read_urls_from_lines lines =
      (lines.map strip_line).filter
        (fun v => !v.isEmpty && !startsWithHash v)) ∧
    strip_line u = u ∧
    strip_line (' ' :: (u ++ [' '])) = u ∧
    strip_line (dquote :: (u ++ [dquote])) = u ∧
    strip_line (squote :: (u ++ [squote])) = u ∧
    strip_line (u ++ [',']) = u ∧
    strip_line (squote :: (u ++ [squote, ','])) = u := by
  have hsp : ∀ c ∈ u, isPySpace c = false := by
    intro c hc
    have h := hclean c hc
    simp [isStrippable] at h
    exact h.1.1.1
  have hdq : ∀ c ∈ u, (c == dquote) = false := by
    intro c hc
    have h := hclean c hc
    simp [isStrippable] at h
    simp [h.1.1.2]
  have hsq : ∀ c ∈ u, (c == squote) = false := by
    intro c hc
    have h := hclean c hc
    simp [isStrippable] at h
    simp [h.1.2]
  have hcm : ∀ c ∈ u, (c == ',') = false := by
    intro c hc
    have h := hclean c hc
    simp [isStrippable] at h
    simp [h.2]
  refine ⟨read_urls_eq_filter, ?_, ?_, ?_, ?_, ?_, ?_⟩
  · unfold strip_line
    rw [stripBy_clean hsp, stripBy_clean hdq, stripBy_clean hcm,
      stripBy_clean hsq]
  · unfold strip_line
    rw [stripBy_sandwich (by decide) (by decide) hsp, stripBy_clean hdq,
      stripBy_clean hcm, stripBy_clean hsq]
  · unfold strip_line
    have hws : ∀ c ∈ dquote :: (u ++ [dquote]), isPySpace c = false := by
      intro c hc
      rcases List.mem_cons.mp hc with rfl | hc2
      · decide
      · rcases List.mem_append.mp hc2 with hc3 | hc3
        · exact hsp c hc3
        · rcases List.mem_singleton.mp hc3 with rfl; decide
    rw [stripBy_clean hws, stripBy_sandwich (by decide) (by decide) hdq,
      stripBy_clean hcm, stripBy_clean hsq]
  · unfold strip_line
    have hws : ∀ c ∈ squote :: (u ++ [squote]), isPySpace c = false := by
      intro c hc
      rcases List.mem_cons.mp hc with rfl | hc2
      · decide
      · rcases List.mem_append.mp hc2 with hc3 | hc3
        · exact hsp c hc3
        · rcases List.mem_singleton.mp hc3 with rfl; decide
    have hdq2 : ∀ c ∈ squote :: (u ++ [squote]), (c == dquote) = false := by
      intro c hc
      rcases List.mem_cons.mp hc with rfl | hc2
      · decide
      · rcases List.mem_append.mp hc2 with hc3 | hc3
        · exact hdq c hc3
        · rcases List.mem_singleton.mp hc3 with rfl; decide
    have hcm2 : ∀ c ∈ squote :: (u ++ [squote]), (c == ',') = false := by
      intro c hc
      rcases List.mem_cons.mp hc with rfl | hc2
      · decide
      · rcases List.mem_append.mp hc2 with hc3 | hc3
        · exact hcm c hc3
        · rcases List.mem_singleton.mp hc3 with rfl; decide
    rw [stripBy_clean hws, stripBy_clean hdq2, stripBy_clean hcm2,
      stripBy_sandwich (by decide) (by decide) hsq]
  · unfold strip_line
    have hws : ∀ c ∈ u ++ [','], isPySpace c = false := by
      intro c hc
      rcases List.mem_append.mp hc with hc3 | hc3
      · exact hsp c hc3
      · rcases List.mem_singleton.mp hc3 with rfl; decide
    have hdq2 : ∀ c ∈ u ++ [','], (c == dquote) = false := by
      intro c hc
      rcases List.mem_append.mp hc with hc3 | hc3
      · exact hdq c hc3
      · rcases List.mem_singleton.mp hc3 with rfl; decide
    rw [stripBy_clean hws, stripBy_clean hdq2, stripBy_strip_right rfl hcm,
      stripBy_clean hsq]
  · unfold strip_line
    have hshape : squote :: (u ++ [squote, ',']) =
        (squote :: (u ++ [squote])) ++ [','] := by simp
    have hws : ∀ c ∈ squote :: (u ++ [squote, ',']), isPySpace c = false := by
      intro c hc
      rcases List.mem_cons.mp hc with rfl | hc2
      · decide
      · rcases List.mem_append.mp hc2 with hc3 | hc3
        · exact hsp c hc3
        · rcases List.mem_cons.mp hc3 with rfl | hc4
          · decide
          · rcases List.mem_singleton.mp hc4 with rfl; decide
    have hdq2 : ∀ c ∈ squote :: (u ++ [squote, ',']), (c == dquote) = false := by
      intro c hc
      rcases List.mem_cons.mp hc with rfl | hc2
      · decide
      · rcases List.mem_append.mp hc2 with hc3 | hc3
        · exact hdq c hc3
        · rcases List.mem_cons.mp hc3 with rfl | hc4
          · decide
          · rcases List.mem_singleton.mp hc4 with rfl; decide
    have hcm2 : ∀ c ∈ squote :: (u ++ [squote]), (c == ',') = false := by
      intro c hc
      rcases List.mem_cons.mp hc with rfl | hc2
      · decide
      · rcases List.mem_append.mp hc2 with hc3 | hc3
        · exact hcm c hc3
        · rcases List.mem_singleton.mp hc3 with rfl; decide
    rw [stripBy_clean hws, stripBy_clean hdq2, hshape,
      stripBy_strip_right rfl hcm2,
      stripBy_sandwich (by decide) (by decide) hsq]

/-- Witness for C9 (amended): the benign stripping cases at a concrete URL,
and the loop-equals-filter fact at a concrete file. -/
theorem read_urls_strip_order_witness :
    read_urls_from_lines
        ["# note".toList, "".toList, " u1 ".toList, "u2,".toList] =
      (["# note".toList, "".toList, " u1 ".toList, "u2,".toList].map
          strip_line).filter (fun v => !v.isEmpty && !startsWithHash v) ∧
    strip_line ("https://example.com/b".toList) =
      "https://example.com/b".toList ∧
    strip_line (squote ::
        ("https://example.com/b".toList ++ [squote, ','])) =
      "https://example.com/b".toList := by
  refine ⟨?_, ?_, ?_⟩
  · exact (read_urls_strip_order ("https://example.com/b".toList)
      (by decide)).1 _
  · exact (read_urls_strip_order ("https://example.com/b".toList)
      (by decide)).2.1
  · exact (read_urls_strip_order ("https://example.com/b".toList)
      (by decide)).2.2.2.2.2.2

/-- Record-update of the temp file with its current value is the identity. -/
theorem FS_set_temp_self (fs : FS) (o : Option (List Nat)) (h : fs.temp = o) :
    { fs with temp := o } = fs := by
  rcases fs with ⟨ft, ff⟩
  cases h
  rfl

/-- The concatenated data of the chunk events of a body prefix. -/
def chunksData : List StreamEvent → List Nat
  | [] => []
  | StreamEvent.chunk _ d :: rest => d ++ chunksData rest
  | StreamEvent.raiseExc _ :: rest => chunksData rest

/-- The streaming loop raises `TimeoutError` at the first chunk boundary
whose arrival time exceeds the budget, having written exactly the earlier
chunks. -/
theorem stream_loop_first_timeout (T start : Nat) (hT : T ≠ 0) :
    ∀ (pre : List StreamEvent) (t : Nat) (d : List Nat)
      (rest : List StreamEvent) (acc : Nat) (fs : FS) (l : List Nat),
    fs.temp = some l →
    (∀ e ∈ pre, ∃ t2 d2, e = StreamEvent.chunk t2 d2 ∧ t2 - start ≤ T) →
    T < t - start →
    stream_loop (some T) start (pre ++ StreamEvent.chunk t d :: rest) acc
        fs =
      (Except.error PyExc.timeoutError,
        { fs with temp := some (l ++ chunksData pre) }) := by
  intro pre
  induction pre with
  | nil =>
    intro t d rest acc fs l htemp hall hgt
    have hcond : (totalTimeoutTruthy (some T)
        && decide (t - start > (some T).getD 0)) = true := by
      simp [totalTimeoutTruthy, hT, hgt]
    simp only [List.nil_append, stream_loop, hcond, if_true, chunksData,
      List.append_nil]
    rw [FS_set_temp_self fs (some l) htemp]
  | cons e pre ih =>
    intro t d rest acc fs l htemp hall hgt
    obtain ⟨t2, d2, rfl, hle⟩ := hall _ (List.mem_cons_self _ _)
    have hall2 : ∀ e ∈ pre,
        ∃ t3 d3, e = StreamEvent.chunk t3 d3 ∧ t3 - start ≤ T :=
      fun e he => hall e (List.mem_cons_of_mem _ he)
    have hcond : (totalTimeoutTruthy (some T)
        && decide (t2 - start > (some T).getD 0)) = false := by
      simp only [totalTimeoutTruthy, Option.getD_some, Bool.and_eq_false_iff]
      right
      simp [Nat.not_lt.mpr hle]
    simp only [List.cons_append, stream_loop, hcond, Bool.false_eq_true,
      if_false]
    by_cases hd2 : d2.isEmpty = true
    · rw [List.isEmpty_iff] at hd2
      subst hd2
      simp only [List.isEmpty_nil, Bool.not_true, Bool.false_eq_true,
        if_false]
      show stream_loop (some T) start
          (pre ++ StreamEvent.chunk t d :: rest) acc fs = _
      rw [ih t d rest acc fs l htemp hall2 hgt]
      simp [chunksData]
    · simp only [hd2, Bool.not_false, if_true]
      have hw : writeTemp fs d2 = { fs with temp := some (l ++ d2) } := by
        simp [writeTemp, htemp]
      rw [hw]
      show stream_loop (some T) start
          (pre ++ StreamEvent.chunk t d :: rest) (acc + d2.length)
          { fs with temp := some (l ++ d2) } = _
      rw [ih t d rest (acc + d2.length) { fs with temp := some (l ++ d2) }
        (l ++ d2) rfl hall2 hgt]
      simp [chunksData, List.append_assoc]

/-- Claim C6: with a configured total-timeout `T`, the transfer is aborted
with `TimeoutError` at the first chunk boundary whose wall-clock time
exceeds `start_time + T` (first conjunct); that condition is classified
retryable with a message distinct from the connect- and read-timeout ones
(second conjunct); and the clock spans attempts: a chunk of the second
attempt is measured against the `start_time` taken before the first attempt
(third conjunct). -/
theorem total_timeout_first_boundary :
    (∀ (response : HttpResponse) (pre : List StreamEvent) (t : Nat)
       (d : List Nat) (rest : List StreamEvent) (T start db : Nat)
       (fm : FileMode) (sr : Bool) (fs : FS),
       response.body = pre ++ StreamEvent.chunk t d :: rest →
       (∀ e ∈ pre, ∃ t2 d2, e = StreamEvent.chunk t2 d2 ∧ t2 - start ≤ T) →
       T ≠ 0 → T < t - start →
       download_content response fm db sr (some T) start fs =
         (Except.error PyExc.timeoutError,
           { openTemp fs fm with
             temp := some (((openTemp fs fm).temp.getD [])
               ++ chunksData pre) })) ∧
    (∀ (rt bv : Nat) (fs : FS),
       handle_download_error PyExc.timeoutError rt bv fs =
         (Except.ok (true, ErrorMsg.timeoutMsg), fs) ∧
       ErrorMsg.timeoutMsg ≠ ErrorMsg.connectTimeoutMsg ∧
       ErrorMsg.timeoutMsg ≠ ErrorMsg.stalledMsg ∧
       ErrorMsg.timeoutMsg ≠ ErrorMsg.noResponseMsg) ∧
    (∀ (T t start : Nat) (dta : List Nat) (cl : Option Nat)
       (cr : Option (List Char)) (ff : Option (List Nat)),
       T ≠ 0 → T < t - start →
       (download_file
         (fun i _ => if i == 0 then ReqResult.err PyExc.connectTimeout
           else ReqResult.ok ⟨200, cl, cr, [StreamEvent.chunk t dta]⟩)
         ⟨30, 60, some T, 1, true, start⟩ ⟨none, ff⟩).msgs =
         [ErrorMsg.connectTimeoutMsg, ErrorMsg.timeoutMsg] ∧
       (download_file
         (fun i _ => if i == 0 then ReqResult.err PyExc.connectTimeout
           else ReqResult.ok ⟨200, cl, cr, [StreamEvent.chunk t dta]⟩)
         ⟨30, 60, some T, 1, true, start⟩ ⟨none, ff⟩).sleeps = [2] ∧
       (download_file
         (fun i _ => if i == 0 then ReqResult.err PyExc.connectTimeout
           else ReqResult.ok ⟨200, cl, cr, [StreamEvent.chunk t dta]⟩)
         ⟨30, 60, some T, 1, true, start⟩ ⟨none, ff⟩).outcome =
         Outcome.failure) := by
  refine ⟨?_, ?_, ?_⟩
  · intro response pre t d rest T start db fm sr fs hbody hall hT hgt
    simp only [download_content]
    rw [hbody]
    exact stream_loop_first_timeout T start hT pre t d rest 0
      (openTemp fs fm) ((openTemp fs fm).temp.getD [])
      (by cases fm <;> simp [openTemp]) hall hgt
  · intro rt bv fs
    exact ⟨rfl, by decide, by decide, by decide⟩
  · intro T t start dta cl cr ff hT0 hgt
    refine ⟨?_, ?_, ?_⟩ <;>
      simp [download_file, download_file_loop, run_attempt,
        prepare_download_state, handle_resume_response, raise_for_status,
        download_content, stream_loop, handle_download_error,
        apply_retry_backoff, cleanup_download, openTemp, writeTemp,
        totalTimeoutTruthy, hT0, hgt]

/-- Witness for C6: one in-budget chunk, then a chunk past the budget; and
the two-attempt run with the late chunk on the second attempt. -/
theorem total_timeout_first_boundary_witness :
    download_content
        ⟨200, none, none,
          [StreamEvent.chunk 3 [1, 2], StreamEvent.chunk 100 [3]]⟩
        FileMode.wb 0 false (some 10) 0 ⟨none, none⟩ =
      (Except.error PyExc.timeoutError, ⟨some [1, 2], none⟩) ∧
    handle_download_error PyExc.timeoutError 60 0 ⟨some [1, 2], none⟩ =
      (Except.ok (true, ErrorMsg.timeoutMsg), ⟨some [1, 2], none⟩) ∧
    (download_file
      (fun i _ => if i == 0 then ReqResult.err PyExc.connectTimeout
        else ReqResult.ok ⟨200, none, none, [StreamEvent.chunk 100 [3]]⟩)
      ⟨30, 60, some 10, 1, true, 0⟩ ⟨none, none⟩).msgs =
      [ErrorMsg.connectTimeoutMsg, ErrorMsg.timeoutMsg] := by
  refine ⟨?_, ?_, ?_⟩
  · have h := total_timeout_first_boundary.1
      ⟨200, none, none,
        [StreamEvent.chunk 3 [1, 2], StreamEvent.chunk 100 [3]]⟩
      [StreamEvent.chunk 3 [1, 2]] 100 [3] [] 10 0 0 FileMode.wb false
      ⟨none, none⟩ rfl
      (by intro e he; rcases List.mem_singleton.mp he with rfl
          exact ⟨3, [1, 2], rfl, by decide⟩)
      (by decide) (by decide)
    simpa [openTemp, chunksData] using h
  · exact (total_timeout_first_boundary.2.1 60 0 ⟨some [1, 2], none⟩).1
  · exact (total_timeout_first_boundary.2.2 10 100 0 [3] none none none
      (by decide) (by decide)).1

/-! ## Claim C1: retry exhaustion under persistent 500s -/

/-- One attempt against a 500-answering server: the request is made, the
status check raises the HTTPError for 500, and the attempt ends in the
handler with no temp file on disk (none was created, and a stale one was
removed by the first attempt's preparation). -/
theorem run_attempt_500 (server : Server) (cfg : DownloadConfig)
    (a bv rq : Nat) (fs : FS) (r : HttpResponse)
    (hr : server rq none = ReqResult.ok r) (hstat : r.status_code = 500)
    (hfs : a = 0 ∨ fs.temp = none) :
    run_attempt server cfg a bv fs rq =
      (AttemptOutcome.raised (PyExc.requestExc (some 500))
        { fs with temp := none } bv, rq + 1) := by
  have hpre : prepare_download_state cfg.attempt_resume a fs =
      (none, FileMode.wb, 0, { fs with temp := none }) := by
    rcases hfs with rfl | htemp
    · simp [prepare_download_state, removeStale_eq]
    · rw [FS_set_temp_self fs none htemp]
      simp [prepare_download_state, htemp]
  have hraise : raise_for_status r =
      Except.error (PyExc.requestExc (some 500)) := by
    simp [raise_for_status, hstat]
  have hhrr : handle_resume_response server r 0 FileMode.wb
      { fs with temp := none } (rq + 1) =
      (Except.error (PyExc.requestExc (some 500)),
        { fs with temp := none }, rq + 1) := by
    simp [handle_resume_response, hraise]
  rw [run_attempt, hpre]
  dsimp only
  rw [hr]
  dsimp only
  rw [hhrr]

/-- Under persistent 500s, the retry loop performs exactly `fuel` more
attempts (where `fuel = retry_count + 1 - attempts`), sleeps the backoffs
`min(2^k, 60)` for `k` from `attempts + 1` to `retry_count`, prints the
request-error diagnosis once per attempt, and fails with no temp file. -/
theorem download_file_loop_all_500 (server : Server) (cfg : DownloadConfig)
    (h500 : ∀ i rng, ∃ r, server i rng = ReqResult.ok r ∧
      r.status_code = 500) :
    ∀ (fuel a bv : Nat) (fs : FS) (rq am : Nat) (sl : List Nat)
      (ms : List ErrorMsg),
    fuel = cfg.retry_count + 1 - a → a ≤ cfg.retry_count →
    (a = 0 ∨ fs.temp = none) →
    download_file_loop server cfg fuel a bv fs rq am sl ms =
      ⟨Outcome.failure, { fs with temp := none }, am + fuel,
        sl ++ (List.range' (a + 1) (cfg.retry_count - a)).map
          (fun k => min (2 ^ k) 60),
        ms ++ List.replicate fuel ErrorMsg.requestErrorMsg⟩ := by
  intro fuel
  induction fuel with
  | zero => intro a bv fs rq am sl ms hfuel ha hfs; omega
  | succ fuel ih =>
    intro a bv fs rq am sl ms hfuel ha hfs
    obtain ⟨r, hr, hstat⟩ := h500 rq none
    simp only [download_file_loop]
    rw [run_attempt_500 server cfg a bv rq fs r hr hstat hfs]
    dsimp only
    have hhandle : handle_download_error (PyExc.requestExc (some 500))
        cfg.read_timeout bv { fs with temp := none } =
        (Except.ok (true, ErrorMsg.requestErrorMsg),
          { fs with temp := none }) := by
      simp [handle_download_error]
    rw [hhandle]
    dsimp only
    by_cases hnext : a + 1 ≤ cfg.retry_count
    · have hbo : apply_retry_backoff (a + 1) cfg.retry_count =
          (true, some (min (2 ^ (a + 1)) 60)) := by
        simp [apply_retry_backoff, hnext]
      rw [hbo]
      simp only [Bool.not_true, Bool.false_eq_true, if_false,
        Option.toList_some]
      rw [ih (a + 1) bv { fs with temp := none } (rq + 1) (am + 1)
        (sl ++ [min (2 ^ (a + 1)) 60]) (ms ++ [ErrorMsg.requestErrorMsg])
        (by omega) hnext (Or.inr rfl)]
      have hrange : cfg.retry_count - a = (cfg.retry_count - (a + 1)) + 1 :=
        by omega
      simp only [DownloadResult.mk.injEq]
      refine ⟨trivial, by simp, by omega, ?_, ?_⟩
      · rw [hrange, List.range'_succ]
        simp [List.append_assoc]
      · simp [List.replicate_succ, List.append_assoc]
    · have hf0 : fuel = 0 := by omega
      subst hf0
      have hbo : apply_retry_backoff (a + 1) cfg.retry_count =
          (false, none) := by
        simp [apply_retry_backoff, hnext]
      rw [hbo]
      simp only [Bool.not_true, Bool.false_eq_true, if_false]
      have hra : cfg.retry_count - a = 0 := by omega
      simp only [DownloadResult.mk.injEq]
      refine ⟨trivial, by simp [cleanup_download], trivial, ?_, by simp⟩
      rw [hra]
      simp

/-- Claim C1: with retry_count = N against a server failing every request
with HTTP 500 (a retryable error), exactly N + 1 attempts are made, the
backoff sleeps are `min(2^k, 60)` for k = 1..N in order, the temp file is
absent at the end, and the call returns failure. -/
theorem retry_exhaustion (server : Server) (cfg : DownloadConfig) (fs0 : FS)
    (h500 : ∀ i rng, ∃ r, server i rng = ReqResult.ok r ∧
      r.status_code = 500) :
    (download_file server cfg fs0).outcome = Outcome.failure ∧
    (download_file server cfg fs0).attemptsMade = cfg.retry_count + 1 ∧
    (download_file server cfg fs0).sleeps =
      (List.range' 1 cfg.retry_count).map (fun k => min (2 ^ k) 60) ∧
    (download_file server cfg fs0).fs.temp = none := by
  have h := download_file_loop_all_500 server cfg h500 (cfg.retry_count + 1)
    0 0 fs0 0 0 [] [] (by omega) (by omega) (Or.inl rfl)
  unfold download_file
  rw [h]
  simp

/-- A server answering every request with a bare 500 (witness for C1). -/
def srv500W : Server := fun _ _ => ReqResult.ok ⟨500, none, none, []⟩

/-- Witness for C1: three retries against the 500 server make four attempts,
sleep 2, 4 and 8 seconds, delete the stale temp file and fail. -/
theorem retry_exhaustion_witness :
    (download_file srv500W cfgW ⟨some [4], some [9]⟩).outcome =
      Outcome.failure ∧
    (download_file srv500W cfgW ⟨some [4], some [9]⟩).attemptsMade = 3 + 1 ∧
    (download_file srv500W cfgW ⟨some [4], some [9]⟩).sleeps =
      (List.range' 1 3).map (fun k => min (2 ^ k) 60) ∧
    (download_file srv500W cfgW ⟨some [4], some [9]⟩).fs.temp = none := by
  have h := retry_exhaustion srv500W cfgW ⟨some [4], some [9]⟩
    (fun _ _ => ⟨⟨500, none, none, []⟩, rfl, rfl⟩)
  refine ⟨h.1, ?_, ?_, h.2.2.2⟩
  · rw [h.2.1]
    decide
  · rw [h.2.2.1]
    decide

/-! ## Claim C7: state after success -/

/-- If the try-block of an attempt executes its `return` (line 254), the
returned boolean is `True` and the file state has no temp file and a final
file: the only normal return goes through `cleanup_download(True, ...)`,
which renames the temp file onto the final path. -/
theorem run_attempt_returned (server : Server) (cfg : DownloadConfig)
    (attempts bytesVar : Nat) (fs : FS) (reqCount : Nat) (b : Bool)
    (fs1 : FS) (rq1 : Nat)
    (h : run_attempt server cfg attempts bytesVar fs reqCount =
      (AttemptOutcome.returned b fs1, rq1)) :
    b = true ∧ fs1.temp = none ∧ fs1.final.isSome := by
  unfold run_attempt at h
  rcases hpre : prepare_download_state cfg.attempt_resume attempts fs with
    ⟨rangeHdr, fm, db, fsA⟩
  rw [hpre] at h
  dsimp only at h
  cases hs : server reqCount rangeHdr with
  | err e => rw [hs] at h; simp at h
  | ok response =>
    rw [hs] at h
    dsimp only at h
    rcases hhr : handle_resume_response server response db fm fsA
        (reqCount + 1) with ⟨exc, fsB, rqB⟩
    rw [hhr] at h
    cases exc with
    | error e => simp at h
    | ok quad =>
      rcases quad with ⟨r2, db2, fm2, sr2⟩
      dsimp only at h
      rcases hdc : download_content r2 fm2 db2 sr2 cfg.total_timeout
          cfg.start_time fsB with ⟨excd, fsC⟩
      rw [hdc] at h
      cases excd with
      | error e => simp at h
      | ok n =>
        rcases htc : fsC.temp with _ | c
        · simp [cleanup_download, htc] at h
        · simp [cleanup_download, htc] at h
          obtain ⟨⟨hb, hfs⟩, -⟩ := h
          subst hb
          refine ⟨rfl, ?_, ?_⟩
          · rw [← hfs]
          · rw [← hfs]
            rfl

/-- Whenever the retry loop reports success, its final file state has no
temp file and a final file. -/
theorem download_file_loop_success (server : Server) (cfg : DownloadConfig) :
    ∀ (fuel attempts bytesVar : Nat) (fs : FS) (rq am : Nat) (sl : List Nat)
      (ms : List ErrorMsg),
    (download_file_loop server cfg fuel attempts bytesVar fs rq am sl
        ms).outcome = Outcome.success →
    (download_file_loop server cfg fuel attempts bytesVar fs rq am sl
        ms).fs.temp = none ∧
    (download_file_loop server cfg fuel attempts bytesVar fs rq am sl
        ms).fs.final.isSome := by
  intro fuel
  induction fuel with
  | zero =>
    intro attempts bytesVar fs rq am sl ms hout
    simp [download_file_loop] at hout
  | succ fuel ih =>
    intro attempts bytesVar fs rq am sl ms hout
    simp only [download_file_loop] at hout ⊢
    rcases hra : run_attempt server cfg attempts bytesVar fs rq with ⟨out, rq1⟩
    rw [hra] at hout
    cases out with
    | returned b fsA =>
      dsimp only at hout ⊢
      obtain ⟨hb, htemp, hfin⟩ := run_attempt_returned server cfg attempts
        bytesVar fs rq b fsA rq1 hra
      exact ⟨htemp, hfin⟩
    | raised e fsA bv1 =>
      dsimp only at hout ⊢
      rcases hh : handle_download_error e cfg.read_timeout bv1 fsA with
        ⟨exc, fsB⟩
      rw [hh] at hout
      cases exc with
      | error e2 => simp at hout
      | ok pair =>
        rcases pair with ⟨can_retry, msg⟩
        cases can_retry with
        | false => simp at hout
        | true =>
          dsimp only at hout ⊢
          rcases hb : apply_retry_backoff (attempts + 1) cfg.retry_count with
            ⟨rb, w⟩
          rw [hb] at hout
          cases rb with
          | true =>
            dsimp only at hout ⊢
            exact ih _ _ _ _ _ _ _ hout
          | false =>
            rcases hc : cleanup_download false false fsB with ⟨cb, fsC⟩
            rw [hc] at hout
            simp at hout

/-- Claim C7: on every successful download the engine first deletes any
pre-existing final file, then renames the temp file onto the final path and
returns success; afterwards the temp file does not exist and the final file
exists. -/
theorem success_final_state :
    (∀ (fs : FS) (c : List Nat), fs.temp = some c →
       cleanup_download true true fs =
         (Except.ok true, ⟨none, some c⟩)) ∧
    (∀ (server : Server) (cfg : DownloadConfig) (fs0 : FS),
       (download_file server cfg fs0).outcome = Outcome.success →
       (download_file server cfg fs0).fs.temp = none ∧
       (download_file server cfg fs0).fs.final.isSome) := by
  constructor
  · intro fs c htemp
    simp [cleanup_download, htemp]
  · intro server cfg fs0 hout
    exact download_file_loop_success server cfg _ _ _ _ _ _ _ _ hout

/-- Witness for C7: a concrete rename, and a concrete successful download
ending with no temp file and an existing final file. -/
theorem success_final_state_witness :
    cleanup_download true true ⟨some [5], some [9]⟩ =
      (Except.ok true, ⟨none, some [5]⟩) ∧
    ((download_file srvOkW cfgW ⟨none, none⟩).fs.temp = none ∧
     (download_file srvOkW cfgW ⟨none, none⟩).fs.final.isSome) := by
  constructor
  · exact success_final_state.1 ⟨some [5], some [9]⟩ [5] rfl
  · exact success_final_state.2 srvOkW cfgW ⟨none, none⟩ (by decide)

/-! ## Claim C2: transport errors without an attached response -/

/-- Claim C2 (bug evidence): for a `RequestException` carrying no response
(DNS failure, connection reset), the classifier does not return retryable -
it raises `AttributeError` (line 178 evaluates `e.response.status_code` with
`e.response` equal to `None` after a vacuously true `hasattr` check), and
that exception escapes `download_file` entirely instead of reaching the
retry loop. -/
theorem transport_error_crashes :
    (∀ (rt bv : Nat) (fs : FS),
       handle_download_error (PyExc.requestExc none) rt bv fs =
         (Except.error PyExc.attributeError, fs)) ∧
    (∀ (server : Server) (cfg : DownloadConfig) (fs0 : FS),
       server 0 none = ReqResult.err (PyExc.requestExc none) →
       (download_file server cfg fs0).outcome =
         Outcome.crashed PyExc.attributeError) := by
  constructor
  · intro rt bv fs
    rfl
  · intro server cfg fs0 herr
    unfold download_file
    simp only [download_file_loop]
    have hpre : prepare_download_state cfg.attempt_resume 0 fs0 =
        (none, FileMode.wb, 0, { fs0 with temp := none }) := by
      simp [prepare_download_state, removeStale_eq]
    rw [run_attempt, hpre]
    dsimp only
    rw [herr]
    rfl

/-- A server failing every request at transport level with no attached
response (witness for C2). -/
def srvDnsW : Server := fun _ _ => ReqResult.err (PyExc.requestExc none)

/-- Witness for C2: the crash at a concrete server and configuration. -/
theorem transport_error_crashes_witness :
    handle_download_error (PyExc.requestExc none) 60 0 ⟨some [1], none⟩ =
      (Except.error PyExc.attributeError, ⟨some [1], none⟩) ∧
    (download_file srvDnsW cfgW ⟨none, none⟩).outcome =
      Outcome.crashed PyExc.attributeError := by
  constructor
  · exact transport_error_crashes.1 60 0 ⟨some [1], none⟩
  · exact transport_error_crashes.2 srvDnsW cfgW ⟨none, none⟩ rfl

/-! ## Claim C4: stalled-versus-no-response message -/

/-- Claim C4 (bug evidence): the classifier itself chooses the stalled
message exactly when its `bytes_in_this_attempt` argument is positive (last
conjunct), but `download_file` always passes it 0 for a read timeout: the
per-attempt count lives inside `download_content` and is lost when the
exception propagates (the line 242 assignment only runs on normal return).
A read timeout after a nonempty chunk was received and written in the same
attempt is therefore reported with the no-response message. -/
theorem stall_message_stale_counter (server : Server) (cfg : DownloadConfig)
    (fs0 : FS) (t : Nat) (data : List Nat)
    (hdata : data ≠ [])
    (htt : cfg.total_timeout = none)
    (hrc : cfg.retry_count = 0)
    (hresp : server 0 none = ReqResult.ok ⟨200, none, none,
      [StreamEvent.chunk t data, StreamEvent.raiseExc PyExc.readTimeout]⟩) :
    (download_file server cfg fs0).msgs = [ErrorMsg.noResponseMsg] ∧
    (download_file server cfg fs0).outcome = Outcome.failure ∧
    (∀ (rt n : Nat) (fs : FS), 0 < n →
       handle_download_error PyExc.readTimeout rt n fs =
         (Except.ok (true, ErrorMsg.stalledMsg), fs)) := by
  have hres : download_file server cfg fs0 =
      ⟨Outcome.failure, ⟨none, fs0.final⟩, 1, [], [ErrorMsg.noResponseMsg]⟩ := by
    cases data with
    | nil => exact absurd rfl hdata
    | cons a l =>
      unfold download_file
      rw [hrc]
      simp only [download_file_loop]
      rw [run_attempt]
      have hpre : prepare_download_state cfg.attempt_resume 0 fs0 =
          (none, FileMode.wb, 0, { fs0 with temp := none }) := by
        simp [prepare_download_state, removeStale_eq]
      rw [hpre]
      dsimp only
      rw [hresp, htt, hrc]
      rfl
  refine ⟨by rw [hres], by rw [hres], ?_⟩
  intro rt n fs hn
  simp [handle_download_error, hn]

/-- A server whose response streams one chunk and then raises a read
timeout (witness for C4). -/
def srvStallW : Server := fun _ _ =>
  ReqResult.ok ⟨200, none, none,
    [StreamEvent.chunk 1 [7, 7, 7], StreamEvent.raiseExc PyExc.readTimeout]⟩

/-- A configuration with no retries and no total timeout (witness for C4). -/
def cfgStallW : DownloadConfig := ⟨30, 60, none, 0, true, 0⟩

/-- Witness for C4: 3 bytes arrive during the only attempt, yet the printed
diagnosis is the no-response message. -/
theorem stall_message_stale_counter_witness :
    (download_file srvStallW cfgStallW ⟨none, none⟩).msgs =
      [ErrorMsg.noResponseMsg] ∧
    handle_download_error PyExc.readTimeout 60 3 ⟨none, none⟩ =
      (Except.ok (true, ErrorMsg.stalledMsg), ⟨none, none⟩) := by
  constructor
  · exact (stall_message_stale_counter srvStallW cfgStallW ⟨none, none⟩ 1
      [7, 7, 7] (by decide) rfl rfl rfl).1
  · exact (stall_message_stale_counter srvStallW cfgStallW ⟨none, none⟩ 1
      [7, 7, 7] (by decide) rfl rfl rfl).2.2 60 3 ⟨none, none⟩ (by decide)

/-! ## Claim C3: 4xx (except 429) is terminal -/

/-- Claim C3: when the first attempt is answered with an HTTP status in
400-499 other than 429, the download makes exactly one attempt, performs no
backoff sleep, leaves no temp file, and returns failure. -/
theorem fatal_4xx_single_attempt (status : Nat) (server : Server)
    (cfg : DownloadConfig) (fs0 : FS) (r : HttpResponse)
    (h400 : 400 ≤ status) (h500 : status < 500) (h429 : status ≠ 429)
    (hresp : server 0 none = ReqResult.ok r)
    (hstatus : r.status_code = status) :
    (download_file server cfg fs0).outcome = Outcome.failure ∧
    (download_file server cfg fs0).attemptsMade = 1 ∧
    (download_file server cfg fs0).sleeps = [] ∧
    (download_file server cfg fs0).fs.temp = none := by
  have h600 : status < 600 := by omega
  have hraise : raise_for_status r =
      Except.error (PyExc.requestExc (some status)) := by
    simp [raise_for_status, hstatus, h400, h600]
  have hhrr : handle_resume_response server r 0 FileMode.wb
      { fs0 with temp := none } (0 + 1) =
      (Except.error (PyExc.requestExc (some status)),
        { fs0 with temp := none }, 0 + 1) := by
    simp [handle_resume_response, hraise]
  have hhandle : handle_download_error (PyExc.requestExc (some status))
      cfg.read_timeout 0 { fs0 with temp := none } =
      (Except.ok (false, ErrorMsg.requestErrorMsg),
        { fs0 with temp := none }) := by
    simp [handle_download_error, h400, h500, h429]
  have hres : download_file server cfg fs0 =
      ⟨Outcome.failure, { fs0 with temp := none }, 1, [],
        [ErrorMsg.requestErrorMsg]⟩ := by
    unfold download_file
    simp only [download_file_loop]
    rw [run_attempt]
    have hpre : prepare_download_state cfg.attempt_resume 0 fs0 =
        (none, FileMode.wb, 0, { fs0 with temp := none }) := by
      simp [prepare_download_state, removeStale_eq]
    rw [hpre]
    dsimp only
    rw [hresp]
    dsimp only
    rw [hhrr]
    dsimp only
    rw [hhandle]
    rfl
  rw [hres]
  exact ⟨rfl, rfl, rfl, rfl⟩

/-- A server answering every request with a bare 404 (witness for C3). -/
def srv404W : Server := fun _ _ => ReqResult.ok ⟨404, none, none, []⟩

/-- Witness for C3: a 404 on the first attempt, starting from a stale temp
file, makes one attempt, sleeps never, leaves no temp file and fails. -/
theorem fatal_4xx_single_attempt_witness :
    (download_file srv404W cfgW ⟨some [1, 2], some [9]⟩).outcome =
      Outcome.failure ∧
    (download_file srv404W cfgW ⟨some [1, 2], some [9]⟩).attemptsMade = 1 ∧
    (download_file srv404W cfgW ⟨some [1, 2], some [9]⟩).sleeps = [] ∧
    (download_file srv404W cfgW ⟨some [1, 2], some [9]⟩).fs.temp = none :=
  fatal_4xx_single_attempt 404 srv404W cfgW ⟨some [1, 2], some [9]⟩
    ⟨404, none, none, []⟩ (by decide) (by decide) (by decide) rfl rfl

/-! ## Claim C5: range request answered with 200 restarts from scratch -/

/-- Claim C5: when a range request was sent (`downloaded_bytes > 0`) and the
server answers 200 instead of 206, the engine deletes the temp file, resets
`downloaded_bytes` to zero, switches to truncate mode and re-issues the
request without the Range header; streaming the full body then yields a temp
file equal to the full content with no duplicated prefix, and the final
rename makes it the final file. -/
theorem resume_fallback_restarts (server : Server)
    (response r2 : HttpResponse) (db : Nat) (fm : FileMode) (fs : FS)
    (tc full : List Nat) (rq t start : Nat)
    (hdb : 0 < db) (htemp : fs.temp = some tc)
    (hstatus : response.status_code = 200)
    (hsrv : server rq none = ReqResult.ok r2)
    (hr2 : r2.status_code = 200)
    (hbody : r2.body = [StreamEvent.chunk t full]) :
    handle_resume_response server response db fm fs rq =
      (Except.ok (r2, 0, FileMode.wb, false), { fs with temp := none },
        rq + 1) ∧
    download_content r2 FileMode.wb 0 false none start
        { fs with temp := none } =
      (Except.ok full.length, { temp := some full, final := fs.final }) ∧
    cleanup_download true true { temp := some full, final := fs.final } =
      (Except.ok true, { temp := none, final := some full }) := by
  refine ⟨?_, ?_, ?_⟩
  · have hraise : raise_for_status r2 = Except.ok () := by
      simp [raise_for_status, hr2]
    simp [handle_resume_response, hstatus, htemp, hsrv, hraise,
      decide_eq_true hdb]
  · simp only [download_content]
    rw [hbody]
    cases full with
    | nil => rfl
    | cons a l => simp [stream_loop, openTemp, writeTemp, totalTimeoutTruthy]
  · simp [cleanup_download]

/-- A server always answering 200 with the same full six-byte body (witness
for C5). -/
def srvFullW : Server :=
  fun _ _ =>
    ReqResult.ok ⟨200, some 6, none,
      [StreamEvent.chunk 5 [1, 2, 3, 4, 5, 6]]⟩

/-- Witness for C5: a three-byte temp file, a range request answered 200,
and the re-issued full download producing the six-byte file. -/
theorem resume_fallback_restarts_witness :
    handle_resume_response srvFullW ⟨200, some 6, none, []⟩ 3 FileMode.ab
        ⟨some [1, 2, 3], some [9]⟩ 1 =
      (Except.ok (⟨200, some 6, none,
          [StreamEvent.chunk 5 [1, 2, 3, 4, 5, 6]]⟩, 0, FileMode.wb, false),
        ⟨none, some [9]⟩, 2) ∧
    download_content ⟨200, some 6, none,
        [StreamEvent.chunk 5 [1, 2, 3, 4, 5, 6]]⟩ FileMode.wb 0 false none 0
        ⟨none, some [9]⟩ =
      (Except.ok 6, ⟨some [1, 2, 3, 4, 5, 6], some [9]⟩) ∧
    cleanup_download true true ⟨some [1, 2, 3, 4, 5, 6], some [9]⟩ =
      (Except.ok true, ⟨none, some [1, 2, 3, 4, 5, 6]⟩) :=
  resume_fallback_restarts srvFullW ⟨200, some 6, none, []⟩
    ⟨200, some 6, none, [StreamEvent.chunk 5 [1, 2, 3, 4, 5, 6]]⟩ 3
    FileMode.ab ⟨some [1, 2, 3], some [9]⟩ [1, 2, 3] [1, 2, 3, 4, 5, 6] 1 5 0
    (by decide) rfl rfl rfl rfl rfl

end Gimmie
